import Mathlib

/-!
Verification of the pollit-backend feed client against its specification.

The development shallowly embeds the pure logic of the repository:

* `generatePollParse` — the line-splitting / label-stripping poll parser
  inlined in `generatePollContent` (public/app.js).
* `resolveImage` / `proxyImageDecision` — the image URL resolution ternary in
  `displayCurrentArticle` / `displayArticles` (public/app.js) and the scheme
  check of the `/api/proxy-image` endpoint (server.js).
* `filterArticles` — the article validity filter of `/api/news` (server.js).
* `shouldRefreshArticles`, `setupDailyCheck` — the cache staleness check and
  the daily 00:05 UTC re-arming timer (client variant file).
* `nextArticle` / `prevArticle` — the cursor navigation with the
  `isTransitioning` re-entrancy guard (public/app.js, both variants).
* `fetchNews` — the fetch outcome handling (public/app.js).

Strings are modelled as `List Char`; JavaScript timestamps as `Int` epoch
milliseconds.  Where a JavaScript `Date` method depends on the runtime's
local timezone (`setHours`), the embedding takes the timezone offset
(minutes east of UTC) as an explicit parameter.
-/

/-- The character set matched by the JavaScript regex class `\s` (also the
set removed by `String.prototype.trim`): ASCII whitespace, NBSP, the Unicode
space separators, line separators and the BOM. -/
def jsWs (c : Char) : Bool :=
  let n := c.toNat
  (9 ≤ n && n ≤ 13) || n = 32 || n = 160 || n = 5760 ||
  (8192 ≤ n && n ≤ 8202) || n = 8232 || n = 8233 || n = 8239 ||
  n = 8287 || n = 12288 || n = 65279

/-- JavaScript `String.prototype.trim`: drop leading and trailing `\s`. -/
def jsTrim (l : List Char) : List Char :=
  ((l.dropWhile jsWs).reverse.dropWhile jsWs).reverse

/-- JavaScript `content.split('\n')`: split on line-feed characters only.
Always returns at least one (possibly empty) segment. -/
def splitNl : List Char → List (List Char)
  | [] => [[]]
  | c :: cs =>
    match splitNl cs, decide (c = '\n') with
    | r, true => [] :: r
    | [], false => [[c]]
    | l :: ls, false => (c :: l) :: ls

/-- ASCII lower-casing, the case folding relevant to the `/i` regex flag on
the ASCII label alternatives used by the parser. -/
def lowerC (c : Char) : Char :=
  if 'A' ≤ c ∧ c ≤ 'Z' then Char.ofNat (c.toNat + 32) else c

/-- The ordered alternation of the label regex
`/^(poll question|question|q|option|answer|choice|a|o)[:.]?\s*／i`:
a JavaScript regex commits to the first alternative that matches, so the
first list element that is a case-insensitive prefix of the line wins. -/
def pollLabels : List (List Char) :=
  ["poll question".data, "question".data, "q".data, "option".data,
   "answer".data, "choice".data, "a".data, "o".data]

/-- After a matched token: `[:.]?\s*` — consume one optional ':' or '.'
and then any run of whitespace. -/
def stripTail (m : List Char) : List Char :=
  match m with
  | [] => []
  | c :: rest => if c = ':' ∨ c = '.' then rest.dropWhile jsWs else m.dropWhile jsWs

/-- `line.replace(/^(poll question|question|q|option|answer|choice|a|o)[:.]?\s*／i, '')`. -/
def stripLabel (l : List Char) : List Char :=
  match pollLabels.find? (fun a => a.isPrefixOf (l.map lowerC)) with
  | none => l
  | some a => stripTail (l.drop a.length)

/-- JavaScript `\d`: the ASCII digits. -/
def jsDigit (c : Char) : Bool := '0' ≤ c && c ≤ '9'

/-- `line.replace(/^\d+[.)]\s*／, '')`: a non-empty run of digits must be
followed by '.' or ')' for the replacement to fire. -/
def stripNum (l : List Char) : List Char :=
  let ds := l.takeWhile jsDigit
  if ds.length = 0 then l
  else
    match l.drop ds.length with
    | c :: rest => if c = '.' ∨ c = ')' then rest.dropWhile jsWs else l
    | [] => l

/-- `line.replace(/^-\s*／, '')`. -/
def stripDash (l : List Char) : List Char :=
  match l with
  | '-' :: rest => rest.dropWhile jsWs
  | _ => l

/-- The line pipeline of `generatePollContent` (public/app.js):
split on newlines, trim, drop empty lines, then apply the three
replacement maps in order. -/
def pollLines (content : List Char) : List (List Char) :=
  ((((splitNl content).map jsTrim).filter (fun l => l.length > 0)).map
    stripLabel).map stripNum |>.map stripDash

structure PollContent where
  question : List Char
  answers : List (List Char)
deriving DecidableEq, Repr

/-- The fixed default poll returned whenever extraction fails. -/
def defaultPoll : PollContent :=
  { question := "What".data ++ [Char.ofNat 39] ++ "s your take on this news?".data
    answers := ["Agree".data, "Neutral".data, "Disagree".data] }

/-- The pure parsing core of `generatePollContent` (public/app.js): take the
first surviving line as the question and the rest as the answers; fall back
to `defaultPoll` when the question is falsy or there are not exactly three
answers. -/
def generatePollParse (content : List Char) : PollContent :=
  match pollLines content with
  | [] => defaultPoll
  | q :: rest => if q = [] ∨ rest.length ≠ 3 then defaultPoll else ⟨q, rest⟩

/-- `generatePollParse` on a string literal. -/
def parsePollS (s : String) : PollContent := generatePollParse s.data

/-! ## ImageResolver (public/app.js `displayCurrentArticle` / `displayArticles`,
and the server's `/api/proxy-image` scheme check) -/

/-- UTF-8 bytes of a character, used by `encodeURIComponent` for characters
outside the unreserved set. -/
def utf8Bytes (c : Char) : List Nat :=
  let n := c.toNat
  if n < 128 then [n]
  else if n < 2048 then [192 + n / 64, 128 + n % 64]
  else if n < 65536 then [224 + n / 4096, 128 + (n / 64) % 64, 128 + n % 64]
  else [240 + n / 262144, 128 + (n / 4096) % 64, 128 + (n / 64) % 64, 128 + n % 64]

/-- Upper-case hexadecimal digit, as produced by `encodeURIComponent`. -/
def hexDigit (n : Nat) : Char :=
  if n < 10 then Char.ofNat (48 + n) else Char.ofNat (55 + n)

/-- Percent-encoding of one byte. -/
def pctByte (b : Nat) : List Char :=
  ['%', hexDigit (b / 16), hexDigit (b % 16)]

/-- The characters `encodeURIComponent` leaves unescaped:
`A-Z a-z 0-9 - _ . ! ~ * ( )` and the apostrophe. -/
def uriUnreserved (c : Char) : Bool :=
  ('A' ≤ c && c ≤ 'Z') || ('a' ≤ c && c ≤ 'z') || ('0' ≤ c && c ≤ '9') ||
  c = '-' || c = '_' || c = '.' || c = '!' || c = '~' || c = '*' ||
  c = Char.ofNat 39 || c = '(' || c = ')'

/-- JavaScript `encodeURIComponent`. -/
def encodeURIComponent (l : List Char) : List Char :=
  l.foldr
    (fun c acc =>
      (if uriUnreserved c then [c]
       else (utf8Bytes c).foldr (fun b acc2 => pctByte b ++ acc2) []) ++ acc)
    []

/-- The local fallback asset reference used by the client. -/
def fallbackAsset : List Char := "fallback.svg".data

/-- The image `src` ternary of `displayCurrentArticle` / `displayArticles`
(public/app.js): a truthy `urlToImage` is routed through the proxy with the
encoded original URL; a falsy one yields the local fallback asset. -/
def resolveImage (apiBase : List Char) (raw : Option (List Char)) : List Char :=
  match raw with
  | none => fallbackAsset
  | some u =>
    if u = [] then fallbackAsset
    else apiBase ++ "/proxy-image?url=".data ++ encodeURIComponent u

inductive ProxyDecision where
  | fallbackFile
  | fetchOrigin (url : List Char)
deriving DecidableEq, Repr

/-- The decision logic of the server's `/api/proxy-image` endpoint
(server.js): missing or non-`http` URLs get the local fallback file; others
are fetched from the origin. -/
def proxyImageDecision (url : Option (List Char)) : ProxyDecision :=
  match url with
  | none => .fallbackFile
  | some u =>
    if u = [] then .fallbackFile
    else if "http".data.isPrefixOf u then .fetchOrigin u
    else .fallbackFile

/-! ## The `/api/news` article filter (server.js) -/

structure SArticle where
  title : Option (List Char)
  description : Option (List Char)
  urlToImage : Option (List Char)
deriving DecidableEq, Repr

/-- JavaScript truthiness of a nullable string: `null`, `undefined` and the
empty string are falsy. -/
def truthyStr : Option (List Char) → Bool
  | none => false
  | some s => !s.isEmpty

/-- `article.urlToImage && article.urlToImage.startsWith('http')`. -/
def hasImage (a : SArticle) : Bool :=
  truthyStr a.urlToImage && "http".data.isPrefixOf (a.urlToImage.getD [])

/-- `article.title && article.title.length > 0`. -/
def hasTitle (a : SArticle) : Bool :=
  truthyStr a.title && (a.title.getD []).length > 0

/-- `article.description && article.description.length > 30`. -/
def hasDescription (a : SArticle) : Bool :=
  truthyStr a.description && (a.description.getD []).length > 30

/-- The filter applied by `/api/news` to each fetched batch (server.js). -/
def filterArticles (batch : List SArticle) : List SArticle :=
  batch.filter (fun a => hasImage a && hasTitle a && hasDescription a)

/-! ## Feed cursor navigation (public/app.js) -/

structure FeedState where
  currentIndex : Int
  total : Int
  isTransitioning : Bool
deriving DecidableEq, Repr

/-- `nextArticle` (public/app.js, synchronous variant): re-entrancy and
upper-bound guard, then a DOM guard that both the current and the next card
exist (the container holds one card per article), then the increment; the
transition flag is cleared before returning. -/
def nextArticle (s : FeedState) : FeedState :=
  if s.isTransitioning = true ∨ s.currentIndex ≥ s.total - 1 then s
  else
    let s1 : FeedState := { s with isTransitioning := true }
    let s2 : FeedState :=
      if 0 ≤ s1.currentIndex ∧ s1.currentIndex < s1.total ∧
         0 ≤ s1.currentIndex + 1 ∧ s1.currentIndex + 1 < s1.total
      then { s1 with currentIndex := s1.currentIndex + 1 }
      else s1
    { s2 with isTransitioning := false }

/-- `prevArticle` (public/app.js, synchronous variant). -/
def prevArticle (s : FeedState) : FeedState :=
  if s.isTransitioning = true ∨ s.currentIndex ≤ 0 then s
  else
    let s1 : FeedState := { s with isTransitioning := true }
    let s2 : FeedState :=
      if 0 ≤ s1.currentIndex ∧ s1.currentIndex < s1.total ∧
         0 ≤ s1.currentIndex - 1 ∧ s1.currentIndex - 1 < s1.total
      then { s1 with currentIndex := s1.currentIndex - 1 }
      else s1
    { s2 with isTransitioning := false }

/-- `nextArticle` (public/app.js, asynchronous variant): same guard; the
flag stays set until the 300ms settle timeout fires. -/
def nextArticleAsync (s : FeedState) : FeedState :=
  if s.isTransitioning = true ∨ s.currentIndex ≥ s.total - 1 then s
  else { s with currentIndex := s.currentIndex + 1, isTransitioning := true }

/-- `prevArticle` (public/app.js, asynchronous variant). -/
def prevArticleAsync (s : FeedState) : FeedState :=
  if s.isTransitioning = true ∨ s.currentIndex ≤ 0 then s
  else { s with currentIndex := s.currentIndex - 1, isTransitioning := true }

/-- Iterated synchronous `nextArticle` calls. -/
def iterNext : Nat → FeedState → FeedState
  | 0, s => s
  | n + 1, s => nextArticle (iterNext n s)

/-! ## `fetchNews` outcome handling (public/app.js) -/

structure NewsData where
  status : List Char
  articles : Option (List SArticle)
deriving DecidableEq, Repr

inductive RetryAction where
  | refetch
deriving DecidableEq, Repr

inductive FetchOutcome where
  | ready (cursor : Int) (batch : List SArticle)
  | errorState (message : List Char) (retry : RetryAction)
deriving DecidableEq, Repr

/-- The client-side filter inside `fetchNews`: keep articles with a truthy
`urlToImage`. -/
def clientImageFilter (batch : List SArticle) : List SArticle :=
  batch.filter (fun a => truthyStr a.urlToImage)

/-- `fetchNews` (public/app.js): an `Except.error` stands for a transport,
HTTP or JSON-parse failure reaching the `catch`; every error path renders an
error message with a Retry button wired to re-invoke `fetchNews`. -/
def fetchNews (resp : Except (List Char) NewsData) : FetchOutcome :=
  match resp with
  | .error e => .errorState e .refetch
  | .ok d =>
    match d.articles with
    | some arts =>
      if d.status = "ok".data ∧ arts.length > 0 then
        let filtered := clientImageFilter arts
        if filtered.length = 0 then
          .errorState "No articles with images found".data .refetch
        else .ready 0 filtered
      else .errorState "Invalid response from API".data .refetch
    | none => .errorState "Invalid response from API".data .refetch

/-! ## Cache staleness and the daily refresh timer (client variant file) -/

def msPerDay : Int := 86400000

/-- Start of the UTC calendar day containing epoch-millisecond `t`. -/
def utcDayStart (t : Int) : Int := t - t % msPerDay

/-- UTC calendar day number of `t`. -/
def utcDay (t : Int) : Int := (t - t % msPerDay) / msPerDay

/-- JavaScript `Date.prototype.getUTCHours`. -/
def getUTCHours (t : Int) : Int := t % msPerDay / 3600000

/-- JavaScript `new Date(t).setHours(0,0,0,0)`: truncation to midnight in
the runtime's local timezone, given as minutes east of UTC. -/
def jsSetHoursZero (tzOffsetMin : Int) (t : Int) : Int :=
  let off := tzOffsetMin * 60000
  (t + off) - (t + off) % msPerDay - off

/-- `shouldRefreshArticles` (client variant file): no `lastFetchTime` entry
is always stale; otherwise compare `setHours(0,0,0,0)` day starts (local
timezone!) and require `now.getUTCHours() >= 0`. -/
def shouldRefreshArticles (tzOffsetMin : Int) (lastFetch : Option Int)
    (now : Int) : Bool :=
  match lastFetch with
  | none => true
  | some t =>
    decide (jsSetHoursZero tzOffsetMin t < jsSetHoursZero tzOffsetMin now ∧
      getUTCHours now ≥ 0)

/-- Modelled from the spec: the staleness rule of §4.1 as the claim states
it — stale iff the UTC calendar day of `fetchedAtUtc` is strictly earlier
than that of `nowUtc` and `nowUtc` is past the 00:00 UTC reset hour; always
stale with no entry. Stated for comparison with `shouldRefreshArticles`. -/
def staleSpecC2 (lastFetch : Option Int) (now : Int) : Bool :=
  match lastFetch with
  | none => true
  | some t => decide (utcDay t < utcDay now ∧ getUTCHours now ≥ 0)

/-- `setupDailyCheck` (client variant file): the scheduled firing instant —
today's 00:05 UTC, pushed to tomorrow when already reached. -/
def setupDailyCheck (now : Int) : Int :=
  let nextCheck := utcDayStart now + 300000
  if nextCheck ≤ now then nextCheck + msPerDay else nextCheck

/-- One firing of the daily timer: the callback fetches exactly when
`shouldRefreshArticles` reports the cache stale, and the timer re-arms
itself via `setupDailyCheck` at the firing time. -/
def dailyFire (tzOffsetMin : Int) (lastFetch : Option Int)
    (fireTime : Int) : Bool × Int :=
  (shouldRefreshArticles tzOffsetMin lastFetch fireTime,
   setupDailyCheck fireTime)

/-- The unbounded sequence of firing instants produced by re-arming. -/
def fireTimes (now : Int) : Nat → Int
  | 0 => setupDailyCheck now
  | n + 1 => setupDailyCheck (fireTimes now n)

/-! ## Theorems -/

/-- C1: `generatePollContent`'s parse is total: for every input it returns a
poll with exactly 3 answers and a non-empty question, and it returns the
fixed default poll whenever stripping yields fewer than 4 usable lines or an
empty question. -/
theorem pollParse_total_and_default (content : List Char) :
    (generatePollParse content).answers.length = 3 ∧
    (generatePollParse content).question ≠ [] ∧
    ((pollLines content).length < 4 ∨ (pollLines content).headD [] = [] →
      generatePollParse content = defaultPoll) := by
  cases h : pollLines content with
  | nil =>
    simp only [generatePollParse, h]
    exact ⟨by decide, by decide, fun _ => by trivial⟩
  | cons q rest =>
    simp only [generatePollParse, h]
    by_cases hq : q = [] ∨ rest.length ≠ 3
    · rw [if_pos hq]
      exact ⟨by decide, by decide, fun _ => rfl⟩
    · rw [if_neg hq]
      push_neg at hq
      refine ⟨hq.2, hq.1, fun hc => ?_⟩
      rcases hc with hl | hh
      · rw [List.length_cons, hq.2] at hl
        omega
      · exact absurd (by simpa using hh) hq.1

/-- C1 witness: on the single-line input `"x"` the hypotheses hold and the
parser degrades to the default poll with its 3 answers. -/
theorem pollParse_total_witness :
    generatePollParse "x".data = defaultPoll ∧
    (generatePollParse "x".data).answers.length = 3 :=
  ⟨(pollParse_total_and_default "x".data).2.2 (Or.inl (by decide)),
   (pollParse_total_and_default "x".data).1⟩

/-- C3: navigation preserves `0 ≤ index < total` (for `total > 0`) and
clamps instead of wrapping: from `total = 5, index = 0`, seven consecutive
`next` calls leave `index = 4`, the last two being no-ops. -/
theorem feedCursor_clamped :
    (∀ s : FeedState, 0 < s.total → 0 ≤ s.currentIndex →
      s.currentIndex < s.total →
      0 ≤ (nextArticle s).currentIndex ∧
      (nextArticle s).currentIndex < (nextArticle s).total ∧
      (nextArticle s).total = s.total ∧
      0 ≤ (prevArticle s).currentIndex ∧
      (prevArticle s).currentIndex < (prevArticle s).total ∧
      (prevArticle s).total = s.total) ∧
    iterNext 7 ⟨0, 5, false⟩ = ⟨4, 5, false⟩ ∧
    nextArticle (iterNext 5 ⟨0, 5, false⟩) = iterNext 5 ⟨0, 5, false⟩ ∧
    nextArticle (iterNext 6 ⟨0, 5, false⟩) = iterNext 6 ⟨0, 5, false⟩ := by
  constructor
  · intro s h1 h2 h3
    obtain ⟨i, tot, tr⟩ := s
    simp only [nextArticle, prevArticle] at *
    split_ifs <;> simp_all
  · exact ⟨by decide, by decide, by decide⟩

/-- C3 witness: instantiating the invariant at `index = 2, total = 5`. -/
theorem feedCursor_clamped_witness :
    0 ≤ (nextArticle ⟨2, 5, false⟩).currentIndex ∧
    (nextArticle ⟨2, 5, false⟩).currentIndex < (nextArticle ⟨2, 5, false⟩).total :=
  ⟨(feedCursor_clamped.1 ⟨2, 5, false⟩ (by decide) (by decide) (by decide)).1,
   (feedCursor_clamped.1 ⟨2, 5, false⟩ (by decide) (by decide) (by decide)).2.1⟩

/-- C7: a `next` or `prev` request issued while `isTransitioning` is true is
a no-op in every navigation variant: the whole feed state is unchanged. -/
theorem transitioning_noop (s : FeedState) (h : s.isTransitioning = true) :
    nextArticle s = s ∧ prevArticle s = s ∧
    nextArticleAsync s = s ∧ prevArticleAsync s = s := by
  refine ⟨?_, ?_, ?_, ?_⟩ <;>
    simp only [nextArticle, prevArticle, nextArticleAsync, prevArticleAsync] <;>
    rw [if_pos (Or.inl h)]

/-- C7 witness: a concrete mid-feed transitioning state is left unchanged. -/
theorem transitioning_noop_witness :
    nextArticle ⟨2, 5, true⟩ = ⟨2, 5, true⟩ ∧
    prevArticle ⟨2, 5, true⟩ = ⟨2, 5, true⟩ ∧
    nextArticleAsync ⟨2, 5, true⟩ = ⟨2, 5, true⟩ ∧
    prevArticleAsync ⟨2, 5, true⟩ = ⟨2, 5, true⟩ :=
  transitioning_noop ⟨2, 5, true⟩ rfl

/-- C4 counterexample: with five surviving lines the parser does not keep
the first three options — it falls back to the default poll, so extra
surviving lines beyond the fourth do change the result. -/
theorem pollParse_extraLines_cex :
    parsePollS "Should X?\nYes\nNo\nMaybe\nNever" = defaultPoll ∧
    parsePollS "Should X?\nYes\nNo\nMaybe\nNever" ≠
      { question := "Should X?".data,
        answers := ["Yes".data, "No".data, "Maybe".data] } := by
  constructor <;> decide

/-- C4 (amended): when stripping yields exactly four surviving lines with a
non-empty first line, the first line is the question and the remaining
three are the options; with any other number of surviving options the
default poll is returned; the concrete example of the claim holds. -/
theorem pollParse_fourLines :
    (∀ content q rest, pollLines content = q :: rest → q ≠ [] →
      rest.length = 3 → generatePollParse content = ⟨q, rest⟩) ∧
    (∀ content q rest, pollLines content = q :: rest → rest.length ≠ 3 →
      generatePollParse content = defaultPoll) ∧
    parsePollS "Q: Should X?\n- Yes\n2) No\nMaybe" =
      { question := "Should X?".data,
        answers := ["Yes".data, "No".data, "Maybe".data] } := by
  refine ⟨fun content q rest h hq hlen => ?_, fun content q rest h hlen => ?_, by decide⟩
  · simp only [generatePollParse, h]
    rw [if_neg]
    push_neg
    exact ⟨hq, hlen⟩
  · simp only [generatePollParse, h]
    rw [if_pos (Or.inr hlen)]

/-- C4 witness: the first amended clause applied to the claim's example. -/
theorem pollParse_fourLines_witness :
    generatePollParse "Q: Should X?\n- Yes\n2) No\nMaybe".data =
      { question := "Should X?".data,
        answers := ["Yes".data, "No".data, "Maybe".data] } :=
  pollParse_fourLines.1 _ _ _ (by decide) (by decide) (by decide)

/-- C5 counterexample: the client-level resolver does not check URL schemes:
`"not-a-url"` is truthy, so it is routed through the proxy rather than
resolved to the local fallback asset. -/
theorem resolveImage_notAUrl_cex :
    resolveImage "/api".data (some "not-a-url".data) =
      "/api/proxy-image?url=not-a-url".data ∧
    resolveImage "/api".data (some "not-a-url".data) ≠ fallbackAsset := by
  constructor <;> decide

/-- C5 (amended): the resolver returns the local fallback asset exactly for
an absent or empty `rawUrl`; every non-empty `rawUrl` — scheme-valid or not
— is routed through the proxy with the URL-encoded original; the scheme
check lives in the proxy collaborator, which serves the fallback file for a
non-`http` URL; a scheme-valid URL yields the proxy route with the encoded
original URL. -/
theorem resolveImage_proxy :
    (∀ apiBase, resolveImage apiBase none = fallbackAsset) ∧
    (∀ apiBase, resolveImage apiBase (some []) = fallbackAsset) ∧
    (∀ apiBase u, u ≠ [] → resolveImage apiBase (some u) =
      apiBase ++ "/proxy-image?url=".data ++ encodeURIComponent u) ∧
    proxyImageDecision (some "not-a-url".data) = .fallbackFile ∧
    resolveImage "/api".data (some "https://x/y.jpg".data) =
      "/api/proxy-image?url=https%3A%2F%2Fx%2Fy.jpg".data := by
  refine ⟨fun apiBase => rfl, fun apiBase => rfl,
    fun apiBase u hu => ?_, by decide, by decide⟩
  simp only [resolveImage]
  rw [if_neg hu]

/-- C5 witness: the proxy-route clause applied to `"not-a-url"`. -/
theorem resolveImage_proxy_witness :
    resolveImage "/api".data (some "not-a-url".data) =
      "/api".data ++ "/proxy-image?url=".data ++
        encodeURIComponent "not-a-url".data :=
  resolveImage_proxy.2.2.1 "/api".data "not-a-url".data (by decide)

/-- C6: an article survives the `/api/news` filter exactly when it has a
truthy non-empty title, a description longer than 30 characters, and an
image URL starting with `http`; this holds for batches of every size. -/
theorem filterArticles_valid (batch : List SArticle) (a : SArticle) :
    a ∈ filterArticles batch ↔
      a ∈ batch ∧ hasTitle a = true ∧ hasDescription a = true ∧
        hasImage a = true := by
  simp only [filterArticles, List.mem_filter, Bool.and_eq_true]
  tauto

/-- C6 witness: a concrete valid article is retained from a singleton
batch. -/
theorem filterArticles_valid_witness :
    (⟨some "t".data, some "0123456789012345678901234567890".data,
      some "https://i".data⟩ : SArticle) ∈
      filterArticles [⟨some "t".data,
        some "0123456789012345678901234567890".data,
        some "https://i".data⟩] :=
  (filterArticles_valid _ _).mpr
    ⟨by decide, by decide, by decide, by decide⟩

/-- C8: on a consumed fetch response, a non-empty client-filtered batch
yields `ready` with cursor 0; an empty filtered batch or a transport/parse
failure yields an error carrying the re-invocable Retry (refetch) action;
every outcome is one of the two, so no path refetches automatically. -/
theorem fetchNews_outcomes :
    (∀ d arts, d.articles = some arts → d.status = "ok".data →
      arts.length > 0 → (clientImageFilter arts).length ≠ 0 →
      fetchNews (.ok d) = .ready 0 (clientImageFilter arts)) ∧
    (∀ d arts, d.articles = some arts → (clientImageFilter arts).length = 0 →
      ∃ msg, fetchNews (.ok d) = .errorState msg .refetch) ∧
    (∀ e, fetchNews (.error e) = .errorState e .refetch) ∧
    (∀ resp, (∃ b, fetchNews resp = .ready 0 b) ∨
      ∃ msg, fetchNews resp = .errorState msg .refetch) := by
  refine ⟨fun d arts h hst hlen hfil => ?_, fun d arts h hfil => ?_,
    fun e => rfl, fun resp => ?_⟩
  · simp only [fetchNews, h]
    rw [if_pos ⟨hst, hlen⟩, if_neg hfil]
  · simp only [fetchNews, h]
    by_cases hc : d.status = "ok".data ∧ arts.length > 0
    · exact ⟨"No articles with images found".data, by rw [if_pos hc, if_pos hfil]⟩
    · exact ⟨"Invalid response from API".data, by rw [if_neg hc]⟩
  · cases resp with
    | error e => exact Or.inr ⟨e, rfl⟩
    | ok d =>
      cases harts : d.articles with
      | none =>
        exact Or.inr ⟨"Invalid response from API".data,
          by simp only [fetchNews, harts]⟩
      | some arts =>
        by_cases h1 : d.status = "ok".data ∧ arts.length > 0
        · by_cases h2 : (clientImageFilter arts).length = 0
          · exact Or.inr ⟨"No articles with images found".data,
              by simp only [fetchNews, harts]; rw [if_pos h1, if_pos h2]⟩
          · exact Or.inl ⟨clientImageFilter arts,
              by simp only [fetchNews, harts]; rw [if_pos h1, if_neg h2]⟩
        · exact Or.inr ⟨"Invalid response from API".data,
            by simp only [fetchNews, harts]; rw [if_neg h1]⟩

/-- C8 witness: a transport failure ends in the retryable error state, and
a good response with one image-bearing article ends Ready at cursor 0. -/
theorem fetchNews_outcomes_witness :
    fetchNews (.error "network down".data) =
      .errorState "network down".data .refetch ∧
    fetchNews (.ok ⟨"ok".data,
        some [⟨some "t".data, some "d".data, some "http://i".data⟩]⟩) =
      .ready 0 (clientImageFilter
        [⟨some "t".data, some "d".data, some "http://i".data⟩]) :=
  ⟨fetchNews_outcomes.2.2.1 _,
   fetchNews_outcomes.1 _ _ rfl rfl (by decide) (by decide)⟩

/-- C2: evidence of the staleness bug. The code comments of
`shouldRefreshArticles` and the spec both demand UTC calendar days, but the
code truncates with `setHours` (local timezone): in a UTC−1 runtime, with
`lastFetchTime` 1970-01-01T23:30Z and now 1970-01-02T00:30Z, the UTC day
has advanced (0 to 1) yet the code reports the cache fresh; the
`getUTCHours() >= 0` conjunct never gates anything; the no-entry and
UTC-runtime cases behave as claimed. -/
theorem shouldRefresh_localDay_bug :
    shouldRefreshArticles (-60) (some 84600000) 88200000 = false ∧
    staleSpecC2 (some 84600000) 88200000 = true ∧
    utcDay 84600000 = 0 ∧ utcDay 88200000 = 1 ∧
    shouldRefreshArticles (-60) none 88200000 = true ∧
    shouldRefreshArticles 0 (some 84600000) 88200000 = true ∧
    (∀ t : Int, getUTCHours t ≥ 0) := by
  refine ⟨by decide, by decide, by decide, by decide, rfl, by decide, fun t => ?_⟩
  simp only [getUTCHours, msPerDay]
  omega

/-- The firing instant chosen by `setupDailyCheck` is always congruent to
00:05 UTC. -/
theorem setupDailyCheck_emod (now : Int) :
    setupDailyCheck now % msPerDay = 300000 := by
  simp only [setupDailyCheck, utcDayStart, msPerDay]
  split <;> omega

/-- Fired exactly at a 00:05 UTC instant, `setupDailyCheck` re-arms for the
same instant on the following day. -/
theorem setupDailyCheck_onBoundary (T : Int) (h : T % msPerDay = 300000) :
    setupDailyCheck T = T + msPerDay := by
  simp only [setupDailyCheck, utcDayStart, msPerDay] at h ⊢
  split <;> omega

/-- Every firing instant in the re-armed sequence is a 00:05 UTC instant. -/
theorem fireTimes_emod (now : Int) (n : Nat) :
    fireTimes now n % msPerDay = 300000 := by
  cases n <;> exact setupDailyCheck_emod _

/-- C9: `setupDailyCheck` schedules the earliest 00:05 UTC instant strictly
in the future; after each firing the re-armed instant is exactly one day
later, for every firing index (an unbounded recurring timer); a firing only
runs the callback, which fetches exactly when `shouldRefreshArticles`
reports the cache stale, and re-arms. -/
theorem dailyCheck_next_reset :
    (∀ now : Int, now < setupDailyCheck now ∧
      setupDailyCheck now % msPerDay = 300000 ∧
      (∀ t : Int, now < t → t % msPerDay = 300000 →
        setupDailyCheck now ≤ t)) ∧
    (∀ (now : Int) (n : Nat),
      fireTimes now (n + 1) = fireTimes now n + msPerDay) ∧
    (∀ tz lastFetch fireTime, dailyFire tz lastFetch fireTime =
      (shouldRefreshArticles tz lastFetch fireTime,
       setupDailyCheck fireTime)) := by
  refine ⟨fun now => ⟨?_, setupDailyCheck_emod now, fun t ht hmod => ?_⟩,
    fun now n => ?_, fun tz lastFetch fireTime => rfl⟩
  · simp only [setupDailyCheck, utcDayStart, msPerDay]
    split <;> omega
  · simp only [setupDailyCheck, utcDayStart, msPerDay] at hmod ⊢
    split <;> omega
  · exact setupDailyCheck_onBoundary _ (fireTimes_emod now n)

/-- C9 witness: from the epoch, the timer fires at 300000 ms (00:05 UTC),
the earliest such instant, and the second firing is one day after the
first. -/
theorem dailyCheck_next_reset_witness :
    (0 : Int) < setupDailyCheck 0 ∧
    setupDailyCheck 0 ≤ 300000 ∧
    fireTimes 0 1 = fireTimes 0 0 + msPerDay :=
  ⟨(dailyCheck_next_reset.1 0).1,
   (dailyCheck_next_reset.1 0).2.2 300000 (by decide) (by decide),
   dailyCheck_next_reset.2.1 0 0⟩

/-- C10 counterexample: a line beginning with one of the longer label
tokens is not stripped of just its first character: on `"Option: Yes"` the
whole token `option` plus `':'` and whitespace is removed, yielding
`"Yes"`, not the `"ption: Yes"` that removing only the first character
(plus following punctuation and whitespace) would give. -/
theorem stripLabel_longToken_cex :
    lowerC ("Option: Yes".data.headD ' ') = 'o' ∧
    stripLabel "Option: Yes".data = "Yes".data ∧
    stripLabel "Option: Yes".data ≠ stripTail ("Option: Yes".data.drop 1) ∧
    stripTail ("Option: Yes".data.drop 1) = "ption: Yes".data := by
  refine ⟨by decide, by decide, by decide, by decide⟩

/-- C10 (amended): the label regex matches the single-letter tokens `a`,
`o`, `q` with no word-boundary requirement — for every line whose first
character lower-cases to one of them and which does not begin
(case-insensitively) with one of the longer tokens `question`, `option`,
`answer`, exactly that character plus an immediately following `':'` or
`'.'` and whitespace is removed; in particular `"Agree strongly"` survives
as `"gree strongly"`. -/
theorem stripLabel_singleLetter :
    (∀ c rest, (lowerC c = 'a' ∨ lowerC c = 'o' ∨ lowerC c = 'q') →
      ¬ "question".data.isPrefixOf ((c :: rest).map lowerC) = true →
      ¬ "option".data.isPrefixOf ((c :: rest).map lowerC) = true →
      ¬ "answer".data.isPrefixOf ((c :: rest).map lowerC) = true →
      stripLabel (c :: rest) = stripTail rest) ∧
    stripLabel "Agree strongly".data = "gree strongly".data := by
  refine ⟨fun c rest h hq ho ha => ?_, by decide⟩
  have hmap : (c :: rest).map lowerC = lowerC c :: rest.map lowerC := rfl
  rcases h with h | h | h
  · rw [hmap, h] at hq ho ha
    have p7 : ("a".data.isPrefixOf ('a' :: rest.map lowerC)) = true := by
      rw [show "a".data = ['a'] from rfl]
      simp [List.isPrefixOf_cons₂]
    have hfind : pollLabels.find?
        (fun x => x.isPrefixOf ((c :: rest).map lowerC)) = some "a".data := by
      rw [hmap, h]
      simp only [pollLabels]
      rw [List.find?_cons_of_neg _ (fun hx => Bool.noConfusion hx),
          List.find?_cons_of_neg _ (fun hx => Bool.noConfusion hx),
          List.find?_cons_of_neg _ (fun hx => Bool.noConfusion hx),
          List.find?_cons_of_neg _ (fun hx => Bool.noConfusion hx)]
      rw [List.find?_cons_of_neg]
      · rw [List.find?_cons_of_neg _ (fun hx => Bool.noConfusion hx)]
        rw [List.find?_cons_of_pos]
        exact p7
      · exact ha
    simp only [stripLabel, hfind]
    rfl
  · rw [hmap, h] at hq ho ha
    have p8 : ("o".data.isPrefixOf ('o' :: rest.map lowerC)) = true := by
      rw [show "o".data = ['o'] from rfl]
      simp [List.isPrefixOf_cons₂]
    have hfind : pollLabels.find?
        (fun x => x.isPrefixOf ((c :: rest).map lowerC)) = some "o".data := by
      rw [hmap, h]
      simp only [pollLabels]
      rw [List.find?_cons_of_neg _ (fun hx => Bool.noConfusion hx),
          List.find?_cons_of_neg _ (fun hx => Bool.noConfusion hx),
          List.find?_cons_of_neg _ (fun hx => Bool.noConfusion hx)]
      rw [List.find?_cons_of_neg]
      · rw [List.find?_cons_of_neg _ (fun hx => Bool.noConfusion hx),
            List.find?_cons_of_neg _ (fun hx => Bool.noConfusion hx),
            List.find?_cons_of_neg _ (fun hx => Bool.noConfusion hx)]
        rw [List.find?_cons_of_pos]
        exact p8
      · exact ho
    simp only [stripLabel, hfind]
    rfl
  · rw [hmap, h] at hq ho ha
    have p3 : ("q".data.isPrefixOf ('q' :: rest.map lowerC)) = true := by
      rw [show "q".data = ['q'] from rfl]
      simp [List.isPrefixOf_cons₂]
    have hfind : pollLabels.find?
        (fun x => x.isPrefixOf ((c :: rest).map lowerC)) = some "q".data := by
      rw [hmap, h]
      simp only [pollLabels]
      rw [List.find?_cons_of_neg _ (fun hx => Bool.noConfusion hx)]
      rw [List.find?_cons_of_neg]
      · rw [List.find?_cons_of_pos]
        exact p3
      · exact hq
    simp only [stripLabel, hfind]
    rfl

/-- C10 witness: the amended rule applied to the claim's example line. -/
theorem stripLabel_singleLetter_witness :
    stripLabel ('A' :: "gree strongly".data) = stripTail "gree strongly".data :=
  stripLabel_singleLetter.1 'A' "gree strongly".data (by decide) (by decide)
    (by decide) (by decide)
